import Mathlib

/-!
# Community Pulse Bot — verification of the metrics aggregation and scoring engine

A shallow embedding, in Lean 4, of the scoring core of the Community Pulse
bot, together with theorems settling the specification's claims about it.

The repository holds two divergent health analyzers:

* `src/health_analyzer.py` — the entropy/confidence-aware variant
  (namespace `HealthAnalyzer` below);
* `src/analytics/health_analyzer.py` — the tier-based variant used by
  `bot.py` (namespace `Analytics` below);

plus `src/analytics/channel_analyzer.py` (namespace `ChannelAnalyzer`) and
`src/analytics/contributor_analyzer.py` (namespace `ContributorAnalyzer`).

Modelling conventions:

* Python ints become `ℕ` (counts) or `ℤ` (timestamps, here in seconds);
  Python floats become `ℚ` wherever the source only uses field arithmetic,
  and `ℝ` where the source calls `math.log2`.
* Python's built-in `round` rounds half to even; it is modelled exactly by
  `pyRound` (on `ℚ`) and `pyRoundR` (on `ℝ`), and `round(x, 1)` by
  `pyRound1`.
* A `StatsProvider`/db query that may raise is modelled as an
  `Except Failure α` value; an operation that awaits such queries without a
  `try/except` threads the error through (`Except.bind`), one that wraps its
  body in `try/except` pattern-matches and returns its fallback value.
* Python's stable `list.sort(key=..., reverse=True)` is modelled by
  `List.insertionSort` with the corresponding non-strict "comes no later
  than" relation, which is likewise stable.
* Presentation-only strings (summaries, recommendation sentences, embed
  text) are not modelled; suggestion entries are modelled as an inductive
  type carrying the data the source interpolates into the text.
-/

namespace CommunityPulse

/-- A failure that a Python call in the source can raise: a failing
StatsProvider/db query, an unguarded division by zero, or (named by the spec,
raised nowhere in the source) an invalid-argument precondition error. -/
inductive Failure where
  | queryError
  | zeroDivisionError
  | invalidArgument
deriving DecidableEq, Repr

/-- Python's built-in `round` on an exact rational: round half to even.
Off a half-integer tie this agrees with Mathlib's `round` (half up); on a
tie `2 * round (q / 2)` picks the even neighbour. -/
def pyRound (q : ℚ) : ℤ :=
  if Int.fract q = 1 / 2 then 2 * round (q / 2) else round q

/-- Python's built-in `round` on a real number (the source computes channel
entropy with `math.log2`, so those values are modelled in `ℝ`). -/
noncomputable def pyRoundR (x : ℝ) : ℤ :=
  letI := Classical.propDecidable
  if Int.fract x = 1 / 2 then 2 * round (x / 2) else round x

/-- Python's `round(q, 1)`: round to one decimal digit, half to even. -/
def pyRound1 (q : ℚ) : ℚ :=
  (pyRound (q * 10) : ℚ) / 10

/-- The `{joins, leaves, retention_rate}` record returned by the db's
`get_join_leave_stats`. -/
structure JoinLeaveStats where
  joins : ℕ
  leaves : ℕ
  retention_rate : ℚ
deriving DecidableEq, Repr

/-- One `{channel_id, message_count}` entry of `get_channel_activity`. -/
structure ChannelActivity where
  channel_id : ℕ
  message_count : ℕ
deriving DecidableEq, Repr

namespace HealthAnalyzer

/-! ## `src/health_analyzer.py` — the entropy/confidence-aware variant -/

/-- `HealthAnalyzer._calculate_confidence`: `min(1.0, message_count /
(days * 10))`.  The division is unguarded in the source, so `days = 0`
raises Python's `ZeroDivisionError`; any other input succeeds. -/
def calculate_confidence (message_count days : ℕ) : Except Failure ℚ :=
  if days * 10 = 0 then .error .zeroDivisionError
  else .ok (min 1 ((message_count : ℚ) / ((days : ℚ) * 10)))

/-- Activity sub-score: messages per active user per day over 30 days,
scaled by 20 and capped at 100; `0` when there is no active user. -/
def activityScore (messages30d activeUsers30d : ℕ) : ℚ :=
  if 0 < activeUsers30d then
    min 100 ((messages30d : ℚ) / ((activeUsers30d : ℚ) * 30) * 20)
  else 0

/-- Growth sub-score: baseline 50, a trend term clamped to `[-25, 25]`, a
retention term capped at 25, the total clamped to `[0, 100]`. -/
def growthScore (trend retention_rate : ℚ) : ℚ :=
  max 0 (min 100 (50 + min 25 (max (-25) (trend * 0.5))
    + min 25 (retention_rate * 0.25)))

/-- Engagement sub-score: 7-day over 30-day active users, times 100; `0`
when there is no 30-day active user.  The source does not clamp it. -/
def engagementScore (activeUsers7d activeUsers30d : ℕ) : ℚ :=
  if 0 < activeUsers30d then
    (activeUsers7d : ℚ) / (activeUsers30d : ℚ) * 100
  else 0

/-- Total message count over the channel-activity list. -/
def totalMessages (channel_activity : List ChannelActivity) : ℕ :=
  (channel_activity.map (fun ch => ch.message_count)).sum

/-- One addend of the entropy loop: `-p * log2 p` with `p = c / total`,
and `0` for a channel with no message (the loop skips those). -/
noncomputable def entropyTerm (total : ℝ) (c : ℕ) : ℝ :=
  if 0 < c then -((c / total) * Real.logb 2 (c / total)) else 0

/-- The Shannon entropy (base 2) of the per-channel message distribution,
as the source's loop computes it. -/
noncomputable def channelEntropy (channel_activity : List ChannelActivity) : ℝ :=
  (channel_activity.map
    (fun ch => entropyTerm (totalMessages channel_activity) ch.message_count)).sum

/-- `max_entropy`: `log2 n` for `n > 1` channels, else `1`. -/
noncomputable def maxEntropyFor (n : ℕ) : ℝ :=
  if 1 < n then Real.logb 2 n else 1

/-- Channel Health sub-score: normalized entropy scaled to 100; `0` with no
channel, and the source's (dead) `else 50` branch when `max_entropy ≤ 0`. -/
noncomputable def channelHealthScore (channel_activity : List ChannelActivity) : ℝ :=
  if 0 < channel_activity.length then
    (if 0 < maxEntropyFor channel_activity.length then
      channelEntropy channel_activity / maxEntropyFor channel_activity.length * 100
    else 50)
  else 0

/-- The `metrics` mapping of the result: each component rounded with
Python's `round`. -/
structure HealthMetrics where
  activity : ℤ
  growth : ℤ
  engagement : ℤ
  channelHealth : ℤ

/-- The fields of the dict `calculate_health_score` returns that carry
data (summary/recommendation sentences are presentation text). -/
structure HealthScoreResult where
  score : ℤ
  metrics : HealthMetrics
  confidence : ℚ
  low_confidence : Bool

/-- The weighted overall score before rounding: Activity 0.35, Growth 0.25,
Engagement 0.25, Channel Health 0.15. -/
noncomputable def overallScore (messages30d activeUsers30d activeUsers7d : ℕ)
    (trend : ℚ) (join_leave : JoinLeaveStats)
    (channel_activity : List ChannelActivity) : ℝ :=
  ((activityScore messages30d activeUsers30d : ℝ)) * 0.35
    + ((growthScore trend join_leave.retention_rate : ℝ)) * 0.25
    + ((engagementScore activeUsers7d activeUsers30d : ℝ)) * 0.25
    + channelHealthScore channel_activity * 0.15

/-- The confidence value `_calculate_confidence(messages_30d, 30)` takes
(the days argument is the constant 30, so the division cannot fail). -/
def confidence30 (messages30d : ℕ) : ℚ :=
  min 1 ((messages30d : ℚ) / 300)

/-- `HealthAnalyzer.calculate_health_score` on already-fetched query
results: the four sub-scores, the weighted overall score rounded, each
metric rounded, and the 30-day confidence flags. -/
noncomputable def calculate_health_score (messages30d activeUsers30d activeUsers7d : ℕ)
    (trend : ℚ) (join_leave : JoinLeaveStats)
    (channel_activity : List ChannelActivity) : HealthScoreResult :=
  { score := pyRoundR (overallScore messages30d activeUsers30d activeUsers7d
      trend join_leave channel_activity)
    metrics :=
      { activity := pyRound (activityScore messages30d activeUsers30d)
        growth := pyRound (growthScore trend join_leave.retention_rate)
        engagement := pyRound (engagementScore activeUsers7d activeUsers30d)
        channelHealth := pyRoundR (channelHealthScore channel_activity) }
    confidence := confidence30 messages30d
    low_confidence := confidence30 messages30d < 1 / 2 }

/-- The `calculate_health_score` coroutine as called: it awaits six db
queries one after the other with no `try/except`, so the first failing
query's exception propagates to the caller. -/
noncomputable def calculate_health_score_op (messages30d activeUsers30d activeUsers7d : Except Failure ℕ)
    (trend : Except Failure ℚ) (join_leave : Except Failure JoinLeaveStats)
    (channel_activity : Except Failure (List ChannelActivity)) :
    Except Failure HealthScoreResult := do
  let m ← messages30d
  let a30 ← activeUsers30d
  let a7 ← activeUsers7d
  let t ← trend
  let jl ← join_leave
  let chs ← channel_activity
  return calculate_health_score m a30 a7 t jl chs

/-- The data fields of the dict `HealthAnalyzer.get_pulse` returns. -/
structure PulseResult where
  total_messages : ℕ
  active_members : ℕ
  total_members : ℕ
  trend : ℚ
  peak_hours : List ℕ
  quiet_channels : List ℕ
  days_analyzed : ℕ
  confidence : ℚ
  low_confidence : Bool

/-- `HealthAnalyzer.get_pulse`: awaits five db queries and the confidence
computation with no `try/except`; a failing query (or the unguarded
division when `days = 0`) propagates. -/
def get_pulse_op (guild_days : ℕ) (total_messages active_members : Except Failure ℕ)
    (trend : Except Failure ℚ) (peak_hours : Except Failure (List ℕ))
    (quiet_channels : Except Failure (List ℕ)) : Except Failure PulseResult := do
  let m ← total_messages
  let a ← active_members
  let t ← trend
  let ph ← peak_hours
  let qc ← quiet_channels
  let conf ← calculate_confidence m guild_days
  return { total_messages := m
           active_members := a
           total_members := a
           trend := t
           peak_hours := ph
           quiet_channels := qc
           days_analyzed := guild_days
           confidence := conf
           low_confidence := conf < 1 / 2 }

/-- One entry of the list `generate_suggestions` returns, keeping the data
the source interpolates into the suggestion text. -/
inductive Suggestion where
  | activityDecline (dropPct : ℚ)
  | consolidateChannels (deadCount : ℕ)
  | improveOnboarding (retention_rate : ℚ)
  | optimizeEventTiming (peakHour : ℕ)
  | capitalizeGrowth (trend : ℚ)
  | serverHealthy
deriving DecidableEq, Repr

/-- `HealthAnalyzer.generate_suggestions` on already-fetched query results:
five independent pattern rules appended in the listed order, with a single
fallback entry when none fires. -/
def generate_suggestions (trend : ℚ) (channel_activity : List ChannelActivity)
    (join_leave : JoinLeaveStats) (peak_hours : List ℕ) : List Suggestion :=
  let s1 : List Suggestion :=
    if trend < -15 then [.activityDecline |trend|] else []
  let dead_channels := channel_activity.filter (fun ch => ch.message_count < 5)
  let s2 : List Suggestion :=
    if 3 < dead_channels.length then [.consolidateChannels dead_channels.length]
    else []
  let s3 : List Suggestion :=
    if join_leave.retention_rate < 60 ∧ 10 < join_leave.joins then
      [.improveOnboarding join_leave.retention_rate]
    else []
  let s4 : List Suggestion :=
    match peak_hours with
    | [] => []
    | h :: _ => [.optimizeEventTiming h]
  let s5 : List Suggestion :=
    if 25 < trend then [.capitalizeGrowth trend] else []
  let suggestions := s1 ++ s2 ++ s3 ++ s4 ++ s5
  if suggestions.isEmpty then [.serverHealthy] else suggestions

/-- The `generate_suggestions` coroutine as called: four db queries awaited
with no `try/except`, so a failing query propagates. -/
def generate_suggestions_op (trend : Except Failure ℚ)
    (channel_activity : Except Failure (List ChannelActivity))
    (join_leave : Except Failure JoinLeaveStats)
    (peak_hours : Except Failure (List ℕ)) : Except Failure (List Suggestion) := do
  let t ← trend
  let chs ← channel_activity
  let jl ← join_leave
  let ph ← peak_hours
  return generate_suggestions t chs jl ph

end HealthAnalyzer

/-- One `{channel_id, message_count, unique_users}` row of the db's
`get_channel_stats`. -/
structure ChannelStat where
  channel_id : ℕ
  message_count : ℕ
  unique_users : ℕ
deriving DecidableEq, Repr

namespace ChannelAnalyzer

/-! ## `src/analytics/channel_analyzer.py` -/

/-- The average message count per channel: `total / len` on a non-empty
list, `0` otherwise. -/
def channelAvg (stats : List ChannelStat) : ℚ :=
  if stats.isEmpty then 0
  else ((stats.map (fun ch => ch.message_count)).sum : ℚ) / (stats.length : ℚ)

/-- First branch of the classification chain: `message_count >= avg and
message_count > 10`. -/
def isActiveCh (avg : ℚ) (ch : ChannelStat) : Bool :=
  decide (avg ≤ (ch.message_count : ℚ)) && decide (10 < ch.message_count)

/-- Second branch (`elif`): not active and `message_count == 0`. -/
def isDeadCh (avg : ℚ) (ch : ChannelStat) : Bool :=
  !isActiveCh avg ch && decide (ch.message_count = 0)

/-- Third branch (`elif`): neither active nor dead and
`message_count < avg * 0.3`. -/
def isDecliningCh (avg : ℚ) (ch : ChannelStat) : Bool :=
  !isActiveCh avg ch && !decide (ch.message_count = 0)
    && decide ((ch.message_count : ℚ) < avg * 0.3)

/-- An entry of the `active` list. -/
structure ActiveChannel where
  id : ℕ
  messages : ℕ
  users : ℕ
  engagement : ℚ
deriving DecidableEq, Repr

/-- An entry of the `dead` list. -/
structure DeadChannel where
  id : ℕ
  messages : ℕ
  days_inactive : ℕ
deriving DecidableEq, Repr

/-- An entry of the `declining` list. -/
structure DecliningChannel where
  id : ℕ
  messages : ℕ
  decline_pct : ℚ
  users : ℕ
deriving DecidableEq, Repr

/-- Build an `active` entry: engagement is users over messages, times 100,
rounded to one decimal (`0` on a zero message count). -/
def toActiveChannel (ch : ChannelStat) : ActiveChannel :=
  { id := ch.channel_id
    messages := ch.message_count
    users := ch.unique_users
    engagement :=
      if 0 < ch.message_count then
        pyRound1 ((ch.unique_users : ℚ) / (ch.message_count : ℚ) * 100)
      else 0 }

/-- Build a `dead` entry. -/
def toDeadChannel (days : ℕ) (ch : ChannelStat) : DeadChannel :=
  { id := ch.channel_id, messages := 0, days_inactive := days }

/-- The decline percentage `(avg - count) / avg * 100`, `0` when the
average is not positive. -/
def declinePct (avg : ℚ) (message_count : ℕ) : ℚ :=
  if 0 < avg then (avg - (message_count : ℚ)) / avg * 100 else 0

/-- Build a `declining` entry. -/
def toDecliningChannel (avg : ℚ) (ch : ChannelStat) : DecliningChannel :=
  { id := ch.channel_id
    messages := ch.message_count
    decline_pct := declinePct avg ch.message_count
    users := ch.unique_users }

/-- The channels the loop appends to `active_channels`, in input order. -/
def activeBucket (stats : List ChannelStat) : List ActiveChannel :=
  (stats.filter (isActiveCh (channelAvg stats))).map toActiveChannel

/-- The channels the loop appends to `dead_channels`, in input order. -/
def deadBucket (days : ℕ) (stats : List ChannelStat) : List DeadChannel :=
  (stats.filter (isDeadCh (channelAvg stats))).map (toDeadChannel days)

/-- The channels the loop appends to `declining_channels`, in input order. -/
def decliningBucket (stats : List ChannelStat) : List DecliningChannel :=
  (stats.filter (isDecliningCh (channelAvg stats))).map
    (toDecliningChannel (channelAvg stats))

/-- The `{active, dead, declining}` result of `analyze_channels`. -/
structure ChannelAnalysis where
  active : List ActiveChannel
  dead : List DeadChannel
  declining : List DecliningChannel
deriving DecidableEq, Repr

/-- `analyze_channels` on an already-fetched stats list: classify, sort
`active` by message count and `declining` by decline percentage (both
descending, stable, as Python's `list.sort(reverse=True)`), cap each list
at 10. -/
def analyze_channels_core (days : ℕ) (stats : List ChannelStat) : ChannelAnalysis :=
  if stats.isEmpty then ⟨[], [], []⟩
  else
    { active := (List.insertionSort (fun a b => b.messages ≤ a.messages)
        (activeBucket stats)).take 10
      dead := (deadBucket days stats).take 10
      declining := (List.insertionSort (fun a b => b.decline_pct ≤ a.decline_pct)
        (decliningBucket stats)).take 10 }

/-- `ChannelAnalyzer.analyze_channels`: the whole body is wrapped in
`try/except`, so a failing `get_channel_stats` query yields the safe
default of three empty lists. -/
def analyze_channels (days : ℕ) (stats : Except Failure (List ChannelStat)) :
    ChannelAnalysis :=
  match stats with
  | .error _ => ⟨[], [], []⟩
  | .ok s => analyze_channels_core days s

end ChannelAnalyzer

/-- One row of the db's `get_user_stats`: message count, channels used, and
first/last activity timestamps (modelled in seconds; `none` models a
missing/falsy timestamp). -/
structure UserStat where
  user_id : ℕ
  message_count : ℕ
  channels_used : ℕ
  first_message : Option ℤ
  last_message : Option ℤ
deriving DecidableEq, Repr

namespace ContributorAnalyzer

/-! ## `src/analytics/contributor_analyzer.py` -/

/-- `_calculate_consistency`: tiered by the day span between first and last
activity (`timedelta.days` floors the difference), with a default of 50 for
a missing timestamp. -/
def calculate_consistency (user : UserStat) : ℚ :=
  match user.first_message, user.last_message with
  | some f, some l =>
    let time_span : ℤ := (l - f).fdiv 86400
    if 14 ≤ time_span then 100
    else if 7 ≤ time_span then 80
    else if 3 ≤ time_span then 60
    else if 1 ≤ time_span then 40
    else 20
  | _, _ => 50

/-- `_calculate_engagement_rate`: tiered by average messages per channel
used, `0` when no channel was used. -/
def calculate_engagement_rate (user : UserStat) : ℚ :=
  if user.channels_used = 0 then 0
  else
    let avg_messages_per_channel : ℚ :=
      (user.message_count : ℚ) / (user.channels_used : ℚ)
    if 10 ≤ avg_messages_per_channel then 100
    else if 5 ≤ avg_messages_per_channel then 80
    else if 2 ≤ avg_messages_per_channel then 60
    else if 1 ≤ avg_messages_per_channel then 40
    else 20

/-- `max(u['message_count'] for u in all_users) if all_users else 1`. -/
def maxMessages (all_users : List UserStat) : ℕ :=
  match all_users with
  | [] => 1
  | _ => (all_users.map (fun u => u.message_count)).foldl max 0

/-- `max(u['channels_used'] for u in all_users) if all_users else 1`. -/
def maxChannels (all_users : List UserStat) : ℕ :=
  match all_users with
  | [] => 1
  | _ => (all_users.map (fun u => u.channels_used)).foldl max 0

/-- `_calculate_contributor_score`: message share of the cohort maximum
(0-40), channel share (0-30), consistency tier scaled to 20, engagement
tier scaled to 10, the total rounded to one decimal. -/
def calculate_contributor_score (user : UserStat) (all_users : List UserStat) : ℚ :=
  let message_score : ℚ :=
    if 0 < maxMessages all_users then
      min 40 ((user.message_count : ℚ) / (maxMessages all_users : ℚ) * 40)
    else 0
  let channel_score : ℚ :=
    if 0 < maxChannels all_users then
      min 30 ((user.channels_used : ℚ) / (maxChannels all_users : ℚ) * 30)
    else 0
  let consistency_score := calculate_consistency user * 0.2
  let engagement_score := calculate_engagement_rate user * 0.1
  pyRound1 (message_score + channel_score + consistency_score + engagement_score)

/-- One entry of the list `get_top_contributors` returns. -/
structure Contributor where
  user_id : ℕ
  score : ℚ
  messages : ℕ
  channels_used : ℕ
  engagement : ℚ
  consistency : ℚ
  first_message : Option ℤ
  last_message : Option ℤ
deriving DecidableEq, Repr

/-- Build the contributor entry for one user of the cohort. -/
def toContributor (all_users : List UserStat) (user : UserStat) : Contributor :=
  { user_id := user.user_id
    score := calculate_contributor_score user all_users
    messages := user.message_count
    channels_used := user.channels_used
    engagement := calculate_engagement_rate user
    consistency := calculate_consistency user
    first_message := user.first_message
    last_message := user.last_message }

/-- `get_top_contributors` on an already-fetched cohort: score every user,
sort by score descending (stable), keep the top 20. -/
def get_top_contributors_core (user_stats : List UserStat) : List Contributor :=
  if user_stats.isEmpty then []
  else
    (List.insertionSort (fun a b => b.score ≤ a.score)
      (user_stats.map (toContributor user_stats))).take 20

/-- `ContributorAnalyzer.get_top_contributors`: wrapped in `try/except`,
so a failing `get_user_stats` query yields the safe default `[]`. -/
def get_top_contributors (user_stats : Except Failure (List UserStat)) :
    List Contributor :=
  match user_stats with
  | .error _ => []
  | .ok s => get_top_contributors_core s

/-- One entry of the list `identify_rising_stars` returns. -/
structure RisingStar where
  user_id : ℕ
  messages : ℕ
  messages_per_day : ℚ
  channels_used : ℕ
  highPotential : Bool
deriving DecidableEq, Repr

/-- Build the rising-star entry for one qualifying top contributor
(`potential` is the string "high" when `messages_per_day >= 5`, else
"medium"; modelled as the Bool `highPotential`). -/
def toRisingStar (days : ℕ) (c : Contributor) : RisingStar :=
  { user_id := c.user_id
    messages := c.messages
    messages_per_day := pyRound1 ((c.messages : ℚ) / (days : ℚ))
    channels_used := c.channels_used
    highPotential := 5 ≤ (c.messages : ℚ) / (days : ℚ) }

/-- `identify_rising_stars` on an already-fetched cohort: filter the top
contributors by `messages/days >= 2 and channels_used >= 2`, sort by the
rounded messages-per-day descending (stable), keep the top 10. -/
def identify_rising_stars_core (days : ℕ) (user_stats : List UserStat) :
    List RisingStar :=
  let recent_contributors := get_top_contributors_core user_stats
  let rising_stars := (recent_contributors.filter
    (fun c => decide (2 ≤ (c.messages : ℚ) / (days : ℚ))
      && decide (2 ≤ c.channels_used))).map (toRisingStar days)
  (List.insertionSort (fun a b => b.messages_per_day ≤ a.messages_per_day)
    rising_stars).take 10

/-- `ContributorAnalyzer.identify_rising_stars`: wrapped in `try/except`,
so a failing query yields the safe default `[]`. -/
def identify_rising_stars (days : ℕ) (user_stats : Except Failure (List UserStat)) :
    List RisingStar :=
  match user_stats with
  | .error _ => []
  | .ok s => identify_rising_stars_core days s

end ContributorAnalyzer

/-- The dict the db's `get_message_stats` returns: totals plus the hourly
`(hour, count)` histogram, most active hour first. -/
structure MessageStats where
  total_messages : ℕ
  active_users : ℕ
  hourly_data : List (ℕ × ℕ)
deriving DecidableEq, Repr

namespace Analytics

/-! ## `src/analytics/health_analyzer.py` — the tier-based variant
(the one `bot.py` instantiates) -/

/-- `_get_previous_period_stats` is a documented stub: it always returns a
previous-period total of `0`. -/
def previous_period_total : ℕ := 0

/-- The data fields of the dict this variant's `get_pulse` returns. -/
structure AvPulse where
  trend : ℚ
  active_members : ℕ
  total_members : ℕ
  total_messages : ℕ
  peak_hours : List ℕ
  quiet_channels : List ℕ
  low_confidence : Bool
deriving DecidableEq, Repr

/-- This variant's `get_pulse` body on fetched data: percent trend against
the (stubbed) previous period, top-3 peak hours, last-3 channels of the
stats list as quiet channels. -/
def get_pulse_core (current_stats : MessageStats)
    (channel_stats : List ChannelStat) : AvPulse :=
  let current_messages := current_stats.total_messages
  let previous_messages := previous_period_total
  let trend : ℚ :=
    if 0 < previous_messages then
      ((current_messages : ℚ) - (previous_messages : ℚ))
        / (previous_messages : ℚ) * 100
    else 0
  let peak_hours :=
    if current_stats.hourly_data.isEmpty then []
    else (current_stats.hourly_data.take 3).map (fun p => p.1)
  let quiet_channels :=
    (channel_stats.drop (channel_stats.length - 3)).map (fun ch => ch.channel_id)
  { trend := trend
    active_members := current_stats.active_users
    total_members := current_stats.active_users
    total_messages := current_messages
    peak_hours := peak_hours
    quiet_channels := quiet_channels
    low_confidence := current_messages < 10 }

/-- `Analytics.get_pulse`: wrapped in `try/except`, so a failing query
yields the all-zero safe default. -/
def get_pulse (current_stats : Except Failure MessageStats)
    (channel_stats : Except Failure (List ChannelStat)) : AvPulse :=
  match current_stats, channel_stats with
  | .ok ms, .ok chs => get_pulse_core ms chs
  | _, _ =>
    { trend := 0, active_members := 0, total_members := 0, total_messages := 0
      peak_hours := [], quiet_channels := [], low_confidence := true }

/-- `_calculate_activity_score`: tiered on messages per day over the 7-day
window. -/
def activity_score (message_stats : MessageStats) : ℕ :=
  let messages_per_day : ℚ := (message_stats.total_messages : ℚ) / 7
  if 100 ≤ messages_per_day then 100
  else if 50 ≤ messages_per_day then 80
  else if 20 ≤ messages_per_day then 60
  else if 5 ≤ messages_per_day then 40
  else if 1 ≤ messages_per_day then 20
  else 0

/-- `_calculate_engagement_score`: tiered on average messages per active
user. -/
def engagement_score (user_stats : List UserStat) : ℕ :=
  if user_stats.isEmpty then 0
  else
    let active_users := user_stats.length
    let total_messages := (user_stats.map (fun u => u.message_count)).sum
    let avg_messages_per_user : ℚ :=
      if 0 < active_users then (total_messages : ℚ) / (active_users : ℚ) else 0
    if 20 ≤ avg_messages_per_user then 100
    else if 10 ≤ avg_messages_per_user then 80
    else if 5 ≤ avg_messages_per_user then 60
    else if 2 ≤ avg_messages_per_user then 40
    else if 1 ≤ avg_messages_per_user then 20
    else 0

/-- `_calculate_diversity_score`: tiered on the number of active channels. -/
def diversity_score (channel_stats : List ChannelStat) : ℕ :=
  let active_channels := channel_stats.length
  if 10 ≤ active_channels then 100
  else if 7 ≤ active_channels then 80
  else if 5 ≤ active_channels then 60
  else if 3 ≤ active_channels then 40
  else if 1 ≤ active_channels then 20
  else 0

/-- `_calculate_consistency_score`: tiered on the number of active hours,
`0` when the histogram is empty or sums to zero. -/
def consistency_score (message_stats : MessageStats) : ℕ :=
  let hourly_data := message_stats.hourly_data
  if hourly_data.isEmpty then 0
  else if (hourly_data.map (fun p => p.2)).sum = 0 then 0
  else
    let active_hours := hourly_data.length
    if 12 ≤ active_hours then 100
    else if 8 ≤ active_hours then 80
    else if 6 ≤ active_hours then 60
    else if 4 ≤ active_hours then 40
    else if 2 ≤ active_hours then 20
    else 0

/-- The result of this variant's `calculate_health_score`; the error
branch returns score 0 with an empty metrics dict (`none`). -/
structure AvHealthResult where
  score : ℤ
  metrics : Option (ℕ × ℕ × ℕ × ℕ)
deriving DecidableEq, Repr

/-- This variant's `calculate_health_score` body on fetched data: weights
0.3/0.3/0.2/0.2 and `int(...)` truncation of the non-negative weighted
sum. -/
def calculate_health_score_core (message_stats : MessageStats)
    (channel_stats : List ChannelStat) (user_stats : List UserStat) :
    AvHealthResult :=
  let a := activity_score message_stats
  let e := engagement_score user_stats
  let d := diversity_score channel_stats
  let c := consistency_score message_stats
  { score := ⌊(a : ℚ) * 0.3 + (e : ℚ) * 0.3 + (d : ℚ) * 0.2 + (c : ℚ) * 0.2⌋
    metrics := some (a, e, d, c) }

/-- `Analytics.calculate_health_score`: wrapped in `try/except`, so a
failing query yields the zero-score safe default. -/
def calculate_health_score (message_stats : Except Failure MessageStats)
    (channel_stats : Except Failure (List ChannelStat))
    (user_stats : Except Failure (List UserStat)) : AvHealthResult :=
  match message_stats, channel_stats, user_stats with
  | .ok ms, .ok chs, .ok us => calculate_health_score_core ms chs us
  | _, _, _ => { score := 0, metrics := none }

end Analytics

/-- A 21-user cohort for the rising-star rank-cutoff scenario: twenty users
with 100 messages over 10 channels (contributor score 90 each) and one user,
id 21, with 28 messages over 2 channels (contributor score 37.2, rank 21). -/
def risingStarCohort : List UserStat :=
  [⟨1, 100, 10, none, none⟩, ⟨2, 100, 10, none, none⟩, ⟨3, 100, 10, none, none⟩,
   ⟨4, 100, 10, none, none⟩, ⟨5, 100, 10, none, none⟩, ⟨6, 100, 10, none, none⟩,
   ⟨7, 100, 10, none, none⟩, ⟨8, 100, 10, none, none⟩, ⟨9, 100, 10, none, none⟩,
   ⟨10, 100, 10, none, none⟩, ⟨11, 100, 10, none, none⟩, ⟨12, 100, 10, none, none⟩,
   ⟨13, 100, 10, none, none⟩, ⟨14, 100, 10, none, none⟩, ⟨15, 100, 10, none, none⟩,
   ⟨16, 100, 10, none, none⟩, ⟨17, 100, 10, none, none⟩, ⟨18, 100, 10, none, none⟩,
   ⟨19, 100, 10, none, none⟩, ⟨20, 100, 10, none, none⟩, ⟨21, 28, 2, none, none⟩]

/-! ## Theorems

First general-purpose lemmas about the embedding, then one theorem (plus,
where needed, a witness or counterexample) per claim of the specification
review. -/

/-- The half-integer test commutes with the cast of a rational to the reals. -/
theorem fract_cast_eq_half_iff (q : ℚ) :
    Int.fract ((q : ℝ)) = 1 / 2 ↔ Int.fract q = 1 / 2 := by
  rw [← Rat.cast_fract]
  constructor
  · intro h
    have h2 : ((Int.fract q : ℚ) : ℝ) = (((1 : ℚ) / 2 : ℚ) : ℝ) := by
      rw [h]; norm_num
    exact_mod_cast h2
  · intro h
    rw [h]
    norm_num

/-- `pyRoundR` agrees with `pyRound` on rationals. -/
theorem pyRoundR_ratCast (q : ℚ) : pyRoundR (q : ℝ) = pyRound q := by
  unfold pyRoundR pyRound
  split_ifs with h1 h2 h3
  · have h4 : ((q : ℝ) / 2) = (((q / 2 : ℚ)) : ℝ) := by push_cast; ring
    rw [h4, Rat.round_cast]
  · exact absurd ((fract_cast_eq_half_iff q).mp h1) h2
  · exact absurd ((fract_cast_eq_half_iff q).mpr h3) h1
  · exact Rat.round_cast q

/-- C8 (counterexample): at `days = 0` the confidence computation fails
with the unguarded division's `ZeroDivisionError`, which is not the
`InvalidArgument` failure the claim asserts. -/
theorem C8_counterexample :
    HealthAnalyzer.calculate_confidence 5 0 = .error .zeroDivisionError ∧
    (Except.error Failure.zeroDivisionError : Except Failure ℚ)
      ≠ .error .invalidArgument := by
  refine ⟨rfl, ?_⟩
  simp

/-- C8 (amended): `_calculate_confidence` has no argument validation; at
`days = 0` the unguarded division `message_count / (days*10)` fails with a
`ZeroDivisionError` (not an `InvalidArgument` precondition failure), and
for every `days > 0` it succeeds, returning
`min(1, message_count / (days*10))`. -/
theorem C8_zero_days_fails_with_division_error (message_count days : ℕ)
    (hdays : 0 < days) :
    HealthAnalyzer.calculate_confidence message_count 0
      = .error .zeroDivisionError ∧
    HealthAnalyzer.calculate_confidence message_count days
      = .ok (min 1 ((message_count : ℚ) / ((days : ℚ) * 10))) := by
  constructor
  · rfl
  · unfold HealthAnalyzer.calculate_confidence
    rw [if_neg (by omega)]

/-- C8 (witness): the amended theorem applied at `message_count = 30`,
`days = 3`. -/
theorem C8_witness :
    HealthAnalyzer.calculate_confidence 30 0 = .error .zeroDivisionError ∧
    HealthAnalyzer.calculate_confidence 30 3
      = .ok (min 1 (((30 : ℕ) : ℚ) / (((3 : ℕ) : ℚ) * 10))) :=
  C8_zero_days_fails_with_division_error 30 3 (by norm_num)

/-- C7: the analytics-variant `get_pulse` compares against
`_get_previous_period_stats`, a stub that always reports a previous-period
total of `0`, so on every successfully fetched input the returned trend is
`0`. -/
theorem C7_pulse_trend_always_zero (current_stats : MessageStats)
    (channel_stats : List ChannelStat) :
    (Analytics.get_pulse (.ok current_stats) (.ok channel_stats)).trend = 0 :=
  rfl

/-- C5: a user with 50 messages over 5 channels spanning 10 days, in a
cohort whose maxima are 50 messages and 5 channels, scores exactly 96.0:
message 40, channel 30, consistency 80% of 20 = 16 (the 7-day tier),
engagement 100% of 10 = 10 (the 10-messages-per-channel tier). -/
theorem C5_scenario_contributor_score_96 (cohort : List UserStat)
    (user : UserStat) (f l : ℤ)
    (hm : user.message_count = 50) (hc : user.channels_used = 5)
    (hf : user.first_message = some f) (hl : user.last_message = some l)
    (hspan : (l - f).fdiv 86400 = 10)
    (hmaxm : ContributorAnalyzer.maxMessages cohort = 50)
    (hmaxc : ContributorAnalyzer.maxChannels cohort = 5) :
    ContributorAnalyzer.calculate_consistency user = 80 ∧
    ContributorAnalyzer.calculate_engagement_rate user = 100 ∧
    ContributorAnalyzer.calculate_contributor_score user cohort = 96 := by
  have hcons : ContributorAnalyzer.calculate_consistency user = 80 := by
    simp only [ContributorAnalyzer.calculate_consistency, hf, hl, hspan]
    norm_num
  have heng : ContributorAnalyzer.calculate_engagement_rate user = 100 := by
    simp only [ContributorAnalyzer.calculate_engagement_rate, hm, hc]
    norm_num
  refine ⟨hcons, heng, ?_⟩
  simp only [ContributorAnalyzer.calculate_contributor_score, hm, hc,
    hmaxm, hmaxc, hcons, heng]
  norm_num [pyRound1, pyRound, Int.fract, round_eq]

/-- C5 (witness): the scenario theorem applied to the singleton cohort of
the user `⟨1, 50, 5, some 0, some 864000⟩` (864000 seconds = 10 days). -/
theorem C5_witness :
    ContributorAnalyzer.calculate_consistency ⟨1, 50, 5, some 0, some 864000⟩ = 80 ∧
    ContributorAnalyzer.calculate_engagement_rate ⟨1, 50, 5, some 0, some 864000⟩ = 100 ∧
    ContributorAnalyzer.calculate_contributor_score ⟨1, 50, 5, some 0, some 864000⟩
      [⟨1, 50, 5, some 0, some 864000⟩] = 96 :=
  C5_scenario_contributor_score_96 [⟨1, 50, 5, some 0, some 864000⟩]
    ⟨1, 50, 5, some 0, some 864000⟩ 0 864000 rfl rfl rfl rfl (by decide)
    (by decide) (by decide)

/-- C1 (amended): the overall score is Python's round of the weighted sum
of the UNROUNDED component scores (weights 0.35/0.25/0.25/0.15); the
`metrics` mapping reports each component separately rounded, so the overall
score need not equal the round of the weighted sum of the reported values. -/
theorem C1_overall_rounds_unrounded_components
    (messages30d activeUsers30d activeUsers7d : ℕ) (trend : ℚ)
    (join_leave : JoinLeaveStats) (channel_activity : List ChannelActivity) :
    (HealthAnalyzer.calculate_health_score messages30d activeUsers30d
      activeUsers7d trend join_leave channel_activity).score
      = pyRoundR
        ((HealthAnalyzer.activityScore messages30d activeUsers30d : ℝ) * 0.35
          + (HealthAnalyzer.growthScore trend join_leave.retention_rate : ℝ) * 0.25
          + (HealthAnalyzer.engagementScore activeUsers7d activeUsers30d : ℝ) * 0.25
          + HealthAnalyzer.channelHealthScore channel_activity * 0.15) :=
  rfl

/-- C1 (counterexample): with 100 messages, 3 thirty-day and 1 seven-day
active users, zero trend and retention and no channels, the overall score
is `round(515/18) = 29`, while the round of the weighted sum of the
REPORTED (rounded) metrics `22/50/33/0` is `round(28.45) = 28`. -/
theorem C1_counterexample :
    (HealthAnalyzer.calculate_health_score 100 3 1 0 ⟨0, 0, 0⟩ []).score = 29 ∧
    (HealthAnalyzer.calculate_health_score 100 3 1 0 ⟨0, 0, 0⟩ []).metrics
      = ⟨22, 50, 33, 0⟩ ∧
    pyRoundR (((22 : ℤ) : ℝ) * 0.35 + ((50 : ℤ) : ℝ) * 0.25
      + ((33 : ℤ) : ℝ) * 0.25 + ((0 : ℤ) : ℝ) * 0.15) = 28 ∧
    (HealthAnalyzer.calculate_health_score 100 3 1 0 ⟨0, 0, 0⟩ []).score
      ≠ pyRoundR
        (((HealthAnalyzer.calculate_health_score 100 3 1 0 ⟨0, 0, 0⟩ []).metrics.activity : ℝ) * 0.35
          + ((HealthAnalyzer.calculate_health_score 100 3 1 0 ⟨0, 0, 0⟩ []).metrics.growth : ℝ) * 0.25
          + ((HealthAnalyzer.calculate_health_score 100 3 1 0 ⟨0, 0, 0⟩ []).metrics.engagement : ℝ) * 0.25
          + ((HealthAnalyzer.calculate_health_score 100 3 1 0 ⟨0, 0, 0⟩ []).metrics.channelHealth : ℝ) * 0.15) := by
  have ha : HealthAnalyzer.activityScore 100 3 = 200 / 9 := by
    norm_num [HealthAnalyzer.activityScore]
  have hg : HealthAnalyzer.growthScore 0 ((⟨0, 0, 0⟩ : JoinLeaveStats).retention_rate) = 50 := by
    norm_num [HealthAnalyzer.growthScore]
  have he : HealthAnalyzer.engagementScore 1 3 = 100 / 3 := by
    norm_num [HealthAnalyzer.engagementScore]
  have hch : HealthAnalyzer.channelHealthScore [] = 0 := by
    simp [HealthAnalyzer.channelHealthScore]
  have hov : HealthAnalyzer.overallScore 100 3 1 0 ⟨0, 0, 0⟩ []
      = ((515 / 18 : ℚ) : ℝ) := by
    unfold HealthAnalyzer.overallScore
    rw [ha, hg, he, hch]
    push_cast
    norm_num
  have hscore : (HealthAnalyzer.calculate_health_score 100 3 1 0 ⟨0, 0, 0⟩ []).score = 29 := by
    show pyRoundR (HealthAnalyzer.overallScore 100 3 1 0 ⟨0, 0, 0⟩ []) = 29
    rw [hov, pyRoundR_ratCast]
    norm_num [pyRound, Int.fract, round_eq]
  have hmet : (HealthAnalyzer.calculate_health_score 100 3 1 0 ⟨0, 0, 0⟩ []).metrics
      = ⟨22, 50, 33, 0⟩ := by
    show HealthAnalyzer.HealthMetrics.mk (pyRound (HealthAnalyzer.activityScore 100 3))
      (pyRound (HealthAnalyzer.growthScore 0 ((⟨0, 0, 0⟩ : JoinLeaveStats).retention_rate)))
      (pyRound (HealthAnalyzer.engagementScore 1 3))
      (pyRoundR (HealthAnalyzer.channelHealthScore [])) = ⟨22, 50, 33, 0⟩
    rw [ha, hg, he, hch]
    rw [show (0 : ℝ) = ((0 : ℚ) : ℝ) by norm_num, pyRoundR_ratCast]
    norm_num [pyRound, Int.fract, round_eq]
  have hrep : pyRoundR (((22 : ℤ) : ℝ) * 0.35 + ((50 : ℤ) : ℝ) * 0.25
      + ((33 : ℤ) : ℝ) * 0.25 + ((0 : ℤ) : ℝ) * 0.15) = 28 := by
    rw [show ((22 : ℤ) : ℝ) * 0.35 + ((50 : ℤ) : ℝ) * 0.25 + ((33 : ℤ) : ℝ) * 0.25
        + ((0 : ℤ) : ℝ) * 0.15 = ((569 / 20 : ℚ) : ℝ) by push_cast; norm_num,
      pyRoundR_ratCast]
    norm_num [pyRound, Int.fract, round_eq]
  refine ⟨hscore, hmet, hrep, ?_⟩
  rw [hscore, hmet]
  simp only []
  rw [hrep]
  norm_num

/-- C3 (counterexample): the entropy-variant `calculate_health_score` has
no `try/except`; when its first db query fails the failure propagates to
the caller instead of a safe default result being returned. -/
theorem C3_counterexample :
    HealthAnalyzer.calculate_health_score_op (.error .queryError) (.ok 0)
      (.ok 0) (.ok 0) (.ok ⟨0, 0, 0⟩) (.ok [])
      = .error .queryError :=
  rfl

/-- C3 (amended): `analyze_channels`, `get_top_contributors`,
`identify_rising_stars` and the analytics-variant health operations catch
a failing query at their boundary and return safe defaults (empty lists,
zero-valued pulse, zero score); the entropy-variant `get_pulse`,
`calculate_health_score` and `generate_suggestions` have no handler and
propagate the failure. -/
theorem C3_fail_soft_boundaries :
    (∀ (e : Failure) (days : ℕ),
      ChannelAnalyzer.analyze_channels days (.error e) = ⟨[], [], []⟩) ∧
    (∀ e : Failure, ContributorAnalyzer.get_top_contributors (.error e) = []) ∧
    (∀ (e : Failure) (days : ℕ),
      ContributorAnalyzer.identify_rising_stars days (.error e) = []) ∧
    (∀ (e : Failure) (chs : Except Failure (List ChannelStat)),
      Analytics.get_pulse (.error e) chs
        = ⟨0, 0, 0, 0, [], [], true⟩) ∧
    (∀ (e : Failure) (chs : Except Failure (List ChannelStat))
        (us : Except Failure (List UserStat)),
      Analytics.calculate_health_score (.error e) chs us = ⟨0, none⟩) ∧
    (∀ (e : Failure) (q2 q3 : Except Failure ℕ) (q4 : Except Failure ℚ)
        (q5 : Except Failure JoinLeaveStats)
        (q6 : Except Failure (List ChannelActivity)),
      HealthAnalyzer.calculate_health_score_op (.error e) q2 q3 q4 q5 q6
        = .error e) ∧
    (∀ (e : Failure) (days : ℕ) (q2 : Except Failure ℕ) (q3 : Except Failure ℚ)
        (q4 q5 : Except Failure (List ℕ)),
      HealthAnalyzer.get_pulse_op days (.error e) q2 q3 q4 q5 = .error e) ∧
    (∀ (e : Failure) (q2 : Except Failure (List ChannelActivity))
        (q3 : Except Failure JoinLeaveStats) (q4 : Except Failure (List ℕ)),
      HealthAnalyzer.generate_suggestions_op (.error e) q2 q3 q4 = .error e) :=
  ⟨fun _ _ => rfl, fun _ => rfl, fun _ _ => rfl, fun _ _ => rfl,
   fun _ _ _ => rfl, fun _ _ _ _ _ _ => rfl, fun _ _ _ _ _ _ => rfl,
   fun _ _ _ _ => rfl⟩

/-- An activity-decline suggestion appears in the output only when the
fetched trend is below `-15`. -/
theorem suggestion_decline_bound (trend : ℚ) (chs : List ChannelActivity)
    (jl : JoinLeaveStats) (ph : List ℕ) (d : ℚ)
    (h : HealthAnalyzer.Suggestion.activityDecline d
      ∈ HealthAnalyzer.generate_suggestions trend chs jl ph) : trend < -15 := by
  by_cases h1 : trend < -15
  · exact h1
  · exfalso
    rcases ph with _ | ⟨hh, rest⟩ <;>
    · simp only [HealthAnalyzer.generate_suggestions] at h
      split_ifs at h <;> simp_all

/-- A growth-capitalization suggestion appears in the output only when the
fetched trend is above `25`. -/
theorem suggestion_growth_bound (trend : ℚ) (chs : List ChannelActivity)
    (jl : JoinLeaveStats) (ph : List ℕ) (g : ℚ)
    (h : HealthAnalyzer.Suggestion.capitalizeGrowth g
      ∈ HealthAnalyzer.generate_suggestions trend chs jl ph) : 25 < trend := by
  by_cases h1 : 25 < trend
  · exact h1
  · exfalso
    rcases ph with _ | ⟨hh, rest⟩ <;>
    · simp only [HealthAnalyzer.generate_suggestions] at h
      split_ifs at h <;> simp_all

/-- C6 (counterexample): no single fetched metric set makes all five
suggestion rules fire at once — rules 1 and 5 test the same trend value
against `< -15` and `> 25`, which no rational satisfies simultaneously. -/
theorem C6_counterexample :
    ¬ ∃ (trend : ℚ) (chs : List ChannelActivity) (jl : JoinLeaveStats)
        (ph : List ℕ),
      (∃ d, HealthAnalyzer.Suggestion.activityDecline d
        ∈ HealthAnalyzer.generate_suggestions trend chs jl ph) ∧
      (∃ n, HealthAnalyzer.Suggestion.consolidateChannels n
        ∈ HealthAnalyzer.generate_suggestions trend chs jl ph) ∧
      (∃ r, HealthAnalyzer.Suggestion.improveOnboarding r
        ∈ HealthAnalyzer.generate_suggestions trend chs jl ph) ∧
      (∃ hr, HealthAnalyzer.Suggestion.optimizeEventTiming hr
        ∈ HealthAnalyzer.generate_suggestions trend chs jl ph) ∧
      (∃ g, HealthAnalyzer.Suggestion.capitalizeGrowth g
        ∈ HealthAnalyzer.generate_suggestions trend chs jl ph) := by
  rintro ⟨trend, chs, jl, ph, ⟨d, hd⟩, -, -, -, ⟨g, hg⟩⟩
  have h1 := suggestion_decline_bound trend chs jl ph d hd
  have h2 := suggestion_growth_bound trend chs jl ph g hg
  linarith

/-- C6 (amended): rules 1 (trend < -15) and 5 (trend > 25) are mutually
exclusive, so at most four rules fire at once; the remaining four rules can
all fire on one input, in the fixed listed order — e.g. trend -20, four
channels under 5 messages, retention 50 with 11 joins, peak hour 14. -/
theorem C6_four_rules_fire_simultaneously :
    (∀ (trend : ℚ) (chs : List ChannelActivity) (jl : JoinLeaveStats)
        (ph : List ℕ) (d g : ℚ),
      HealthAnalyzer.Suggestion.activityDecline d
        ∈ HealthAnalyzer.generate_suggestions trend chs jl ph →
      HealthAnalyzer.Suggestion.capitalizeGrowth g
        ∈ HealthAnalyzer.generate_suggestions trend chs jl ph → False) ∧
    HealthAnalyzer.generate_suggestions (-20) [⟨1, 0⟩, ⟨2, 1⟩, ⟨3, 2⟩, ⟨4, 3⟩]
      ⟨11, 2, 50⟩ [14]
      = [.activityDecline 20, .consolidateChannels 4, .improveOnboarding 50,
         .optimizeEventTiming 14] := by
  constructor
  · intro trend chs jl ph d g hd hg
    have h1 := suggestion_decline_bound trend chs jl ph d hd
    have h2 := suggestion_growth_bound trend chs jl ph g hg
    linarith
  · norm_num [HealthAnalyzer.generate_suggestions, List.filter]

/-- C9: rising stars are drawn only from the at-most-20 entries that
`get_top_contributors` returns, and on the 21-user cohort
`risingStarCohort` the user with id 21 — 28 messages over 14 days (2 per
day) across 2 channels, so meeting the rising-star criteria — ranks 21st
by contributor score, is cut from the top-20 list, and therefore appears
in neither the top-contributor output nor the rising-star output. -/
theorem C9_rising_stars_limited_to_top20 :
    (∀ (days : ℕ) (stats : List UserStat)
        (s : ContributorAnalyzer.RisingStar),
      s ∈ ContributorAnalyzer.identify_rising_stars_core days stats →
      ∃ c ∈ ContributorAnalyzer.get_top_contributors_core stats,
        s.user_id = c.user_id) ∧
    (2 ≤ (((28 : ℕ) : ℚ)) / (((14 : ℕ) : ℚ)) ∧ 2 ≤ (2 : ℕ)) ∧
    (⟨21, 28, 2, none, none⟩ : UserStat) ∈ risingStarCohort ∧
    (ContributorAnalyzer.get_top_contributors_core risingStarCohort).map
      (fun c => c.user_id)
      = [1, 2, 3, 4, 5, 6, 7, 8, 9, 10, 11, 12, 13, 14, 15, 16, 17, 18, 19, 20] ∧
    (ContributorAnalyzer.identify_rising_stars_core 14 risingStarCohort).map
      (fun s => s.user_id)
      = [1, 2, 3, 4, 5, 6, 7, 8, 9, 10] := by
  refine ⟨?_, ⟨by norm_num, by norm_num⟩, by simp [risingStarCohort], ?_, ?_⟩
  · intro days stats s h
    unfold ContributorAnalyzer.identify_rising_stars_core at h
    have h1 := List.take_subset 10 _ h
    rw [(List.perm_insertionSort _ _).mem_iff] at h1
    rcases List.mem_map.mp h1 with ⟨c, hc, rfl⟩
    exact ⟨c, (List.mem_filter.mp hc).1, rfl⟩
  · norm_num [ContributorAnalyzer.get_top_contributors_core, risingStarCohort,
      ContributorAnalyzer.toContributor,
      ContributorAnalyzer.calculate_contributor_score,
      ContributorAnalyzer.calculate_consistency,
      ContributorAnalyzer.calculate_engagement_rate,
      ContributorAnalyzer.maxMessages, ContributorAnalyzer.maxChannels,
      pyRound1, pyRound, Int.fract, round_eq, List.insertionSort,
      List.orderedInsert]
  · norm_num [ContributorAnalyzer.identify_rising_stars_core,
      ContributorAnalyzer.get_top_contributors_core, risingStarCohort,
      ContributorAnalyzer.toContributor,
      ContributorAnalyzer.calculate_contributor_score,
      ContributorAnalyzer.calculate_consistency,
      ContributorAnalyzer.calculate_engagement_rate,
      ContributorAnalyzer.maxMessages, ContributorAnalyzer.maxChannels,
      pyRound1, pyRound, Int.fract, round_eq, List.insertionSort,
      List.orderedInsert, ContributorAnalyzer.toRisingStar, List.filter]

namespace ChannelAnalyzer

/-- A channel lands in the dead branch exactly when it has no message (a
zero-count channel can never satisfy the active branch's `> 10` test). -/
theorem dead_iff_zero (avg : ℚ) (ch : ChannelStat) :
    isDeadCh avg ch = true ↔ ch.message_count = 0 := by
  simp only [isDeadCh, isActiveCh, Bool.and_eq_true, Bool.not_eq_true',
    Bool.and_eq_false_iff, decide_eq_true_eq, decide_eq_false_iff_not]
  constructor
  · rintro ⟨-, h⟩
    exact h
  · intro h
    refine ⟨?_, h⟩
    right
    omega

/-- The active branch is exactly `avg ≤ count ∧ 10 < count`. -/
theorem active_iff (avg : ℚ) (ch : ChannelStat) :
    isActiveCh avg ch = true
      ↔ (avg ≤ (ch.message_count : ℚ) ∧ 10 < ch.message_count) := by
  simp [isActiveCh]

/-- The declining branch is exactly `count < avg * 0.3` for a channel that
matched neither of the two earlier branches. -/
theorem declining_iff (avg : ℚ) (ch : ChannelStat) :
    isDecliningCh avg ch = true
      ↔ ((ch.message_count : ℚ) < avg * 0.3 ∧ isActiveCh avg ch = false
          ∧ ch.message_count ≠ 0) := by
  simp only [isDecliningCh, Bool.and_eq_true, Bool.not_eq_true',
    decide_eq_true_eq, decide_eq_false_iff_not, ne_eq]
  constructor
  · rintro ⟨⟨hna, hnz⟩, hlt⟩
    exact ⟨hlt, hna, hnz⟩
  · rintro ⟨hlt, hna, hnz⟩
    exact ⟨⟨hna, hnz⟩, hlt⟩

/-- The three classification branches are pairwise exclusive. -/
theorem buckets_disjoint (avg : ℚ) (ch : ChannelStat) :
    ¬(isActiveCh avg ch = true ∧ isDeadCh avg ch = true) ∧
    ¬(isActiveCh avg ch = true ∧ isDecliningCh avg ch = true) ∧
    ¬(isDeadCh avg ch = true ∧ isDecliningCh avg ch = true) := by
  refine ⟨?_, ?_, ?_⟩
  · rintro ⟨h1, h2⟩
    rw [active_iff] at h1
    rw [dead_iff_zero] at h2
    omega
  · rintro ⟨h1, h2⟩
    rw [declining_iff] at h2
    rw [h2.2.1] at h1
    exact Bool.false_ne_true h1
  · rintro ⟨h1, h2⟩
    rw [dead_iff_zero] at h1
    rw [declining_iff] at h2
    exact h2.2.2 h1

/-- A channel with no message is classified into the dead bucket. -/
theorem zero_count_in_dead (days : ℕ) (stats : List ChannelStat)
    (ch : ChannelStat) (hmem : ch ∈ stats) (hz : ch.message_count = 0) :
    toDeadChannel days ch ∈ deadBucket days stats := by
  unfold deadBucket
  exact List.mem_map_of_mem _
    (List.mem_filter.mpr ⟨hmem, (dead_iff_zero _ ch).mpr hz⟩)

/-- Every entry of the active bucket carries a positive message count. -/
theorem activeBucket_pos (stats : List ChannelStat) (e : ActiveChannel)
    (he : e ∈ activeBucket stats) : 0 < e.messages := by
  unfold activeBucket at he
  rcases List.mem_map.mp he with ⟨ch, hch, rfl⟩
  have h := ((active_iff _ ch).mp (List.mem_filter.mp hch).2).2
  simp only [toActiveChannel]
  omega

/-- Every entry of the declining bucket carries a positive message count. -/
theorem decliningBucket_pos (stats : List ChannelStat) (e : DecliningChannel)
    (he : e ∈ decliningBucket stats) : 0 < e.messages := by
  unfold decliningBucket at he
  rcases List.mem_map.mp he with ⟨ch, hch, rfl⟩
  have h := ((declining_iff _ ch).mp (List.mem_filter.mp hch).2).2.2
  simp only [toDecliningChannel]
  omega

/-- The returned `active` and `declining` lists are sorted descending by
message count and by decline percentage respectively. -/
theorem analyze_sorted (days : ℕ) (stats : List ChannelStat) :
    List.Sorted (fun a b => b.messages ≤ a.messages)
      (analyze_channels_core days stats).active ∧
    List.Sorted (fun a b => b.decline_pct ≤ a.decline_pct)
      (analyze_channels_core days stats).declining := by
  haveI i1 : IsTotal ActiveChannel (fun a b => b.messages ≤ a.messages) :=
    ⟨fun a b => le_total b.messages a.messages⟩
  haveI i2 : IsTrans ActiveChannel (fun a b => b.messages ≤ a.messages) :=
    ⟨fun _ _ _ h1 h2 => le_trans h2 h1⟩
  haveI i3 : IsTotal DecliningChannel (fun a b => b.decline_pct ≤ a.decline_pct) :=
    ⟨fun a b => le_total b.decline_pct a.decline_pct⟩
  haveI i4 : IsTrans DecliningChannel (fun a b => b.decline_pct ≤ a.decline_pct) :=
    ⟨fun _ _ _ h1 h2 => le_trans h2 h1⟩
  unfold analyze_channels_core
  by_cases h : stats.isEmpty
  · simp [h]
  · simp only [h, if_neg, Bool.false_eq_true, not_false_iff]
    constructor
    · exact (List.sorted_insertionSort _ _).sublist (List.take_sublist _ _)
    · exact (List.sorted_insertionSort _ _).sublist (List.take_sublist _ _)

/-- Each returned list is capped at 10 entries. -/
theorem analyze_caps (days : ℕ) (stats : List ChannelStat) :
    (analyze_channels_core days stats).active.length ≤ 10 ∧
    (analyze_channels_core days stats).dead.length ≤ 10 ∧
    (analyze_channels_core days stats).declining.length ≤ 10 := by
  unfold analyze_channels_core
  by_cases h : stats.isEmpty
  · simp [h]
  · simp only [h, Bool.false_eq_true, if_neg, not_false_iff]
    exact ⟨List.length_take_le _ _, List.length_take_le _ _,
      List.length_take_le _ _⟩

end ChannelAnalyzer

/-- C4: `analyze_channels` computes `avg = total / channel_count` (0 for no
channels); a channel is dead iff its count is 0, active iff `avg ≤ count`
and `count > 10`, declining iff `count < avg*0.3` and no earlier branch
matched; the buckets are pairwise disjoint; zero-count channels always land
in the dead bucket and active/declining entries always have positive
counts; the returned `active`/`declining` lists are sorted descending by
message count / decline percentage and every list is capped at 10; an
empty channel list yields three empty lists; and the `[100, 0, 0, 5]`
scenario classifies as active = channel 1, dead = channels 2 and 3,
declining = channel 4 (with decline percentage `1700/21 ≈ 80.95`). -/
theorem C4_channel_classification :
    (ChannelAnalyzer.channelAvg [] = 0) ∧
    (∀ stats : List ChannelStat, stats ≠ [] →
      ChannelAnalyzer.channelAvg stats
        = ((stats.map (fun ch => ch.message_count)).sum : ℚ) / (stats.length : ℚ)) ∧
    (∀ (avg : ℚ) (ch : ChannelStat),
      ChannelAnalyzer.isDeadCh avg ch = true ↔ ch.message_count = 0) ∧
    (∀ (avg : ℚ) (ch : ChannelStat),
      ChannelAnalyzer.isActiveCh avg ch = true
        ↔ (avg ≤ (ch.message_count : ℚ) ∧ 10 < ch.message_count)) ∧
    (∀ (avg : ℚ) (ch : ChannelStat),
      ChannelAnalyzer.isDecliningCh avg ch = true
        ↔ ((ch.message_count : ℚ) < avg * 0.3
            ∧ ChannelAnalyzer.isActiveCh avg ch = false
            ∧ ch.message_count ≠ 0)) ∧
    (∀ (avg : ℚ) (ch : ChannelStat),
      ¬(ChannelAnalyzer.isActiveCh avg ch = true
          ∧ ChannelAnalyzer.isDeadCh avg ch = true) ∧
      ¬(ChannelAnalyzer.isActiveCh avg ch = true
          ∧ ChannelAnalyzer.isDecliningCh avg ch = true) ∧
      ¬(ChannelAnalyzer.isDeadCh avg ch = true
          ∧ ChannelAnalyzer.isDecliningCh avg ch = true)) ∧
    (∀ (days : ℕ) (stats : List ChannelStat) (ch : ChannelStat),
      ch ∈ stats → ch.message_count = 0 →
      ChannelAnalyzer.toDeadChannel days ch
        ∈ ChannelAnalyzer.deadBucket days stats) ∧
    (∀ (stats : List ChannelStat) (e : ChannelAnalyzer.ActiveChannel),
      e ∈ ChannelAnalyzer.activeBucket stats → 0 < e.messages) ∧
    (∀ (stats : List ChannelStat) (e : ChannelAnalyzer.DecliningChannel),
      e ∈ ChannelAnalyzer.decliningBucket stats → 0 < e.messages) ∧
    (∀ (days : ℕ) (stats : List ChannelStat),
      List.Sorted (fun a b => b.messages ≤ a.messages)
        (ChannelAnalyzer.analyze_channels_core days stats).active ∧
      List.Sorted (fun a b => b.decline_pct ≤ a.decline_pct)
        (ChannelAnalyzer.analyze_channels_core days stats).declining) ∧
    (∀ (days : ℕ) (stats : List ChannelStat),
      (ChannelAnalyzer.analyze_channels_core days stats).active.length ≤ 10 ∧
      (ChannelAnalyzer.analyze_channels_core days stats).dead.length ≤ 10 ∧
      (ChannelAnalyzer.analyze_channels_core days stats).declining.length ≤ 10) ∧
    (∀ days : ℕ, ChannelAnalyzer.analyze_channels_core days [] = ⟨[], [], []⟩) ∧
    ChannelAnalyzer.analyze_channels_core 7
        [⟨1, 100, 10⟩, ⟨2, 0, 0⟩, ⟨3, 0, 0⟩, ⟨4, 5, 2⟩]
      = ⟨[⟨1, 100, 10, 10⟩], [⟨2, 0, 7⟩, ⟨3, 0, 7⟩], [⟨4, 5, 1700 / 21, 2⟩]⟩ := by
  refine ⟨rfl, ?_, ChannelAnalyzer.dead_iff_zero, ChannelAnalyzer.active_iff,
    ChannelAnalyzer.declining_iff, ChannelAnalyzer.buckets_disjoint,
    ChannelAnalyzer.zero_count_in_dead, ChannelAnalyzer.activeBucket_pos,
    ChannelAnalyzer.decliningBucket_pos, ChannelAnalyzer.analyze_sorted,
    ChannelAnalyzer.analyze_caps, fun _ => rfl, ?_⟩
  · intro stats h
    cases stats with
    | nil => exact absurd rfl h
    | cons a l => rfl
  · norm_num [ChannelAnalyzer.analyze_channels_core,
      ChannelAnalyzer.activeBucket, ChannelAnalyzer.deadBucket,
      ChannelAnalyzer.decliningBucket, ChannelAnalyzer.channelAvg,
      ChannelAnalyzer.isActiveCh, ChannelAnalyzer.isDeadCh,
      ChannelAnalyzer.isDecliningCh, ChannelAnalyzer.toActiveChannel,
      ChannelAnalyzer.toDeadChannel, ChannelAnalyzer.toDecliningChannel,
      ChannelAnalyzer.declinePct, pyRound1, pyRound, Int.fract, round_eq,
      List.insertionSort, List.orderedInsert, List.filter]

/-- Gibbs' bound via Jensen: for a probability vector on `n` points, the
Shannon entropy in nats is at most `log n`. -/
theorem sum_negMulLog_le_log_card (n : ℕ) (hn : 0 < n) (p : Fin n → ℝ)
    (hp : ∀ i, 0 ≤ p i) (hsum : ∑ i, p i = 1) :
    ∑ i, Real.negMulLog (p i) ≤ Real.log n := by
  have hn0 : ((n : ℝ)) ≠ 0 := Nat.cast_ne_zero.mpr hn.ne'
  have hinv : (0 : ℝ) < (n : ℝ)⁻¹ := by positivity
  have jensen := Real.concaveOn_negMulLog.le_map_sum
    (t := Finset.univ) (w := fun _ : Fin n => (n : ℝ)⁻¹) (p := p)
    (fun i _ => le_of_lt hinv)
    (by simp [Finset.sum_const, Finset.card_univ, mul_comm]
        exact mul_inv_cancel₀ hn0)
    (fun i _ => hp i)
  have hrhs : (∑ i, (n : ℝ)⁻¹ • p i) = (n : ℝ)⁻¹ := by
    rw [← Finset.smul_sum, hsum, smul_eq_mul, mul_one]
  rw [hrhs] at jensen
  have hneg : Real.negMulLog ((n : ℝ)⁻¹) = (n : ℝ)⁻¹ * Real.log n := by
    rw [Real.negMulLog, Real.log_inv]
    ring
  rw [hneg] at jensen
  have hlhs : (∑ i, (n : ℝ)⁻¹ • Real.negMulLog (p i))
      = (n : ℝ)⁻¹ * ∑ i, Real.negMulLog (p i) := by
    rw [← Finset.smul_sum, smul_eq_mul]
  rw [hlhs] at jensen
  exact (mul_le_mul_left hinv).mp jensen

namespace HealthAnalyzer

/-- Each entropy addend is `negMulLog` of the channel's message share,
rescaled from nats to bits. -/
theorem entropyTerm_eq_negMulLog (total : ℝ) (c : ℕ) :
    entropyTerm total c = Real.negMulLog ((c : ℝ) / total) / Real.log 2 := by
  unfold entropyTerm
  by_cases h : 0 < c
  · rw [if_pos h, Real.negMulLog, Real.logb]
    ring
  · rw [if_neg h]
    have hc : c = 0 := by omega
    subst hc
    simp

/-- A channel's message count never exceeds the total. -/
theorem count_le_totalMessages (chs : List ChannelActivity)
    (ch : ChannelActivity) (h : ch ∈ chs) :
    ch.message_count ≤ totalMessages chs := by
  unfold totalMessages
  exact List.single_le_sum (fun x _ => Nat.zero_le x) _
    (List.mem_map_of_mem _ h)

/-- The entropy of the channel distribution is non-negative. -/
theorem channelEntropy_nonneg (chs : List ChannelActivity) :
    0 ≤ channelEntropy chs := by
  unfold channelEntropy
  apply List.sum_nonneg
  intro x hx
  rcases List.mem_map.mp hx with ⟨ch, hch, rfl⟩
  unfold entropyTerm
  by_cases h : 0 < ch.message_count
  · rw [if_pos h]
    have htot : (0 : ℝ) < (totalMessages chs : ℝ) := by
      have h1 := count_le_totalMessages chs ch hch
      have h2 : 0 < totalMessages chs := by omega
      exact_mod_cast h2
    have hp0 : (0 : ℝ) ≤ (ch.message_count : ℝ) / (totalMessages chs : ℝ) := by
      positivity
    have hp1 : (ch.message_count : ℝ) / (totalMessages chs : ℝ) ≤ 1 := by
      rw [div_le_one htot]
      exact_mod_cast count_le_totalMessages chs ch hch
    have hlog : Real.logb 2 ((ch.message_count : ℝ) / (totalMessages chs : ℝ)) ≤ 0 :=
      Real.logb_nonpos (by norm_num) hp0 hp1
    have h3 := mul_nonneg hp0 (neg_nonneg.mpr hlog)
    linarith [h3]
  · rw [if_neg h]

/-- The entropy of the channel distribution (in bits) is at most
`log2 channel_count`. -/
theorem channelEntropy_le_logb_length (chs : List ChannelActivity) :
    channelEntropy chs ≤ Real.logb 2 (chs.length : ℝ) := by
  by_cases htot : totalMessages chs = 0
  · have hzero : channelEntropy chs = 0 := by
      unfold channelEntropy
      apply List.sum_eq_zero
      intro x hx
      rcases List.mem_map.mp hx with ⟨ch, hch, rfl⟩
      have h1 := count_le_totalMessages chs ch hch
      have hc : ch.message_count = 0 := by omega
      rw [hc]
      simp [entropyTerm]
    rw [hzero]
    rcases Nat.eq_zero_or_pos chs.length with h | h
    · rw [h]
      simp
    · exact Real.logb_nonneg (by norm_num) (by exact_mod_cast h)
  · have htotpos : 0 < totalMessages chs := Nat.pos_of_ne_zero htot
    have hTpos : (0 : ℝ) < (totalMessages chs : ℝ) := by exact_mod_cast htotpos
    have hn : 0 < chs.length := by
      rcases chs with _ | ⟨a, l⟩
      · simp [totalMessages] at htot
      · simp
    have hmap : channelEntropy chs
        = ∑ i : Fin chs.length,
            entropyTerm (totalMessages chs) ((chs.get i).message_count) := by
      unfold channelEntropy
      rw [← List.ofFn_getElem_eq_map chs
        (fun ch => entropyTerm (totalMessages chs) ch.message_count)]
      rw [List.sum_ofFn]
      simp
    have hsumT : (totalMessages chs : ℝ)
        = ∑ i : Fin chs.length, ((chs.get i).message_count : ℝ) := by
      have h1 : totalMessages chs
          = ∑ i : Fin chs.length, (chs.get i).message_count := by
        unfold totalMessages
        rw [← List.ofFn_getElem_eq_map chs (fun ch => ch.message_count)]
        rw [List.sum_ofFn]
        simp
      rw [h1]
      push_cast
      rfl
    have hgibbs := sum_negMulLog_le_log_card chs.length hn
      (fun i => ((chs.get i).message_count : ℝ) / (totalMessages chs : ℝ))
      (fun i => by positivity)
      (by rw [← Finset.sum_div, ← hsumT, div_self (ne_of_gt hTpos)])
    have hconv : channelEntropy chs
        = (∑ i : Fin chs.length,
            Real.negMulLog (((chs.get i).message_count : ℝ)
              / (totalMessages chs : ℝ))) / Real.log 2 := by
      rw [hmap, Finset.sum_div]
      congr 1
      funext i
      exact entropyTerm_eq_negMulLog _ _
    rw [hconv, ← Real.log_div_log]
    exact (div_le_div_iff_of_pos_right (Real.log_pos (by norm_num))).mpr hgibbs

/-- The normalizing `max_entropy` is positive for every non-empty channel
list. -/
theorem maxEntropyFor_pos (n : ℕ) (_hn : 0 < n) : 0 < maxEntropyFor n := by
  unfold maxEntropyFor
  split_ifs with h
  · exact Real.logb_pos (by norm_num) (by exact_mod_cast h)
  · norm_num

/-- The Channel Health sub-score always lies in `[0, 100]`. -/
theorem channelHealthScore_mem (chs : List ChannelActivity) :
    0 ≤ channelHealthScore chs ∧ channelHealthScore chs ≤ 100 := by
  unfold channelHealthScore
  by_cases hn : 0 < chs.length
  · rw [if_pos hn, if_pos (maxEntropyFor_pos chs.length hn)]
    have hM := maxEntropyFor_pos chs.length hn
    have hE0 := channelEntropy_nonneg chs
    have hEle : channelEntropy chs ≤ maxEntropyFor chs.length := by
      unfold maxEntropyFor
      split_ifs with h
      · exact channelEntropy_le_logb_length chs
      · have h1 : chs.length = 1 := by omega
        have h2 := channelEntropy_le_logb_length chs
        rw [h1] at h2
        simp at h2
        linarith
    constructor
    · positivity
    · have hdiv : channelEntropy chs / maxEntropyFor chs.length ≤ 1 :=
        (div_le_one hM).mpr hEle
      nlinarith
  · rw [if_neg hn]
    norm_num

/-- If no channel has a nonzero count, the total is zero. -/
theorem totalMessages_zero_of_no_active (chs : List ChannelActivity)
    (h : chs.filter (fun ch => ch.message_count != 0) = []) :
    totalMessages chs = 0 := by
  unfold totalMessages
  apply List.sum_eq_zero
  intro x hx
  rcases List.mem_map.mp hx with ⟨ch, hch, rfl⟩
  have h1 := List.filter_eq_nil_iff.mp h ch hch
  simpa using h1

/-- With exactly one channel of nonzero count, the total equals that
channel's count. -/
theorem totalMessages_of_single_active (chs : List ChannelActivity)
    (x : ChannelActivity)
    (hx : chs.filter (fun ch => ch.message_count != 0) = [x]) :
    totalMessages chs = x.message_count := by
  induction chs with
  | nil => simp at hx
  | cons a t ih =>
    by_cases ha : a.message_count = 0
    · have hfil : (a :: t).filter (fun ch => ch.message_count != 0)
          = t.filter (fun ch => ch.message_count != 0) := by
        simp [List.filter_cons, ha]
      rw [hfil] at hx
      have h1 := ih hx
      unfold totalMessages at h1 ⊢
      simp [ha, h1]
    · have hfil : (a :: t).filter (fun ch => ch.message_count != 0)
          = a :: t.filter (fun ch => ch.message_count != 0) := by
        simp [List.filter_cons, ha]
      rw [hfil] at hx
      injection hx with h1 h2
      subst h1
      have ht := totalMessages_zero_of_no_active t h2
      unfold totalMessages at ht ⊢
      simp [ht]

/-- Python's round of the real zero is zero. -/
theorem pyRoundR_zero : pyRoundR 0 = 0 := by
  rw [show (0 : ℝ) = ((0 : ℚ) : ℝ) by norm_num, pyRoundR_ratCast]
  norm_num [pyRound, Int.fract, round_eq]

end HealthAnalyzer

/-- C2 (counterexample): with 10 seven-day but only 5 thirty-day active
users the Engagement component is 200, outside `[0, 100]` — the source
does not clamp it. -/
theorem C2_counterexample :
    HealthAnalyzer.engagementScore 10 5 = 200 ∧
    ¬ HealthAnalyzer.engagementScore 10 5 ≤ 100 := by
  norm_num [HealthAnalyzer.engagementScore]

/-- C2 (amended): Activity, Growth and Channel Health always lie in
`[0, 100]`; Engagement is non-negative but NOT independently clamped — it
lies in `[0, 100]` exactly under the data contract that the 7-day active
count does not exceed the 30-day active count. -/
theorem C2_component_bounds (messages30d activeUsers30d activeUsers7d : ℕ)
    (trend retention_rate : ℚ) (channel_activity : List ChannelActivity)
    (husers : activeUsers7d ≤ activeUsers30d) :
    (0 ≤ HealthAnalyzer.activityScore messages30d activeUsers30d
      ∧ HealthAnalyzer.activityScore messages30d activeUsers30d ≤ 100) ∧
    (0 ≤ HealthAnalyzer.growthScore trend retention_rate
      ∧ HealthAnalyzer.growthScore trend retention_rate ≤ 100) ∧
    (0 ≤ HealthAnalyzer.engagementScore activeUsers7d activeUsers30d
      ∧ HealthAnalyzer.engagementScore activeUsers7d activeUsers30d ≤ 100) ∧
    (0 ≤ HealthAnalyzer.channelHealthScore channel_activity
      ∧ HealthAnalyzer.channelHealthScore channel_activity ≤ 100) := by
  refine ⟨?_, ?_, ?_, HealthAnalyzer.channelHealthScore_mem channel_activity⟩
  · unfold HealthAnalyzer.activityScore
    split_ifs with h
    · exact ⟨le_min (by norm_num) (by positivity), min_le_left _ _⟩
    · norm_num
  · unfold HealthAnalyzer.growthScore
    exact ⟨le_max_left _ _, max_le (by norm_num) (min_le_left _ _)⟩
  · unfold HealthAnalyzer.engagementScore
    split_ifs with h30
    · constructor
      · positivity
      · have h1 : ((activeUsers7d : ℚ)) / (activeUsers30d : ℚ) ≤ 1 := by
          rw [div_le_one (by exact_mod_cast h30)]
          exact_mod_cast husers
        nlinarith
    · norm_num

/-- C2 (witness): the amended theorem applied at 100 messages, 3 thirty-day
and 1 seven-day active users, zero trend and retention, and two channels
with counts 2 and 1. -/
theorem C2_witness :
    (0 ≤ HealthAnalyzer.activityScore 100 3
      ∧ HealthAnalyzer.activityScore 100 3 ≤ 100) ∧
    (0 ≤ HealthAnalyzer.growthScore 0 0
      ∧ HealthAnalyzer.growthScore 0 0 ≤ 100) ∧
    (0 ≤ HealthAnalyzer.engagementScore 1 3
      ∧ HealthAnalyzer.engagementScore 1 3 ≤ 100) ∧
    (0 ≤ HealthAnalyzer.channelHealthScore [⟨1, 2⟩, ⟨2, 1⟩]
      ∧ HealthAnalyzer.channelHealthScore [⟨1, 2⟩, ⟨2, 1⟩] ≤ 100) :=
  C2_component_bounds 100 3 1 0 0 [⟨1, 2⟩, ⟨2, 1⟩] (by norm_num)

/-- C10: whenever exactly one channel of the activity list has a nonzero
message count, that channel's share is 1, the entropy is 0, and the Channel
Health component — both the real-valued sub-score and the rounded metric —
is 0, however many channels are listed and however large the volume. -/
theorem C10_single_active_channel_zero_health (chs : List ChannelActivity)
    (h : (chs.filter (fun ch => ch.message_count != 0)).length = 1) :
    HealthAnalyzer.channelHealthScore chs = 0 ∧
    pyRoundR (HealthAnalyzer.channelHealthScore chs) = 0 := by
  rcases List.length_eq_one.mp h with ⟨x, hx⟩
  have hxmem : x ∈ chs := by
    have h1 : x ∈ chs.filter (fun ch => ch.message_count != 0) := by
      rw [hx]
      exact List.mem_singleton_self x
    exact (List.mem_filter.mp h1).1
  have hxpos : x.message_count ≠ 0 := by
    have h1 : x ∈ chs.filter (fun ch => ch.message_count != 0) := by
      rw [hx]
      exact List.mem_singleton_self x
    simpa using (List.mem_filter.mp h1).2
  have htot := HealthAnalyzer.totalMessages_of_single_active chs x hx
  have hTpos : (0 : ℝ) < (HealthAnalyzer.totalMessages chs : ℝ) := by
    rw [htot]
    exact_mod_cast Nat.pos_of_ne_zero hxpos
  have hE : HealthAnalyzer.channelEntropy chs = 0 := by
    unfold HealthAnalyzer.channelEntropy
    apply List.sum_eq_zero
    intro v hv
    rcases List.mem_map.mp hv with ⟨ch, hch, rfl⟩
    by_cases hc : ch.message_count = 0
    · rw [hc]
      simp [HealthAnalyzer.entropyTerm]
    · have hchf : ch ∈ chs.filter (fun ch => ch.message_count != 0) :=
        List.mem_filter.mpr ⟨hch, by simpa using hc⟩
      rw [hx] at hchf
      have hcx : ch = x := by simpa using hchf
      subst hcx
      unfold HealthAnalyzer.entropyTerm
      rw [if_pos (Nat.pos_of_ne_zero hc), ← htot, div_self (ne_of_gt hTpos)]
      simp
  have hlen : 0 < chs.length := List.length_pos.mpr
    (fun hnil => by simp [hnil] at hxmem)
  have hscore : HealthAnalyzer.channelHealthScore chs = 0 := by
    unfold HealthAnalyzer.channelHealthScore
    rw [if_pos hlen, if_pos (HealthAnalyzer.maxEntropyFor_pos chs.length hlen), hE]
    simp
  exact ⟨hscore, by rw [hscore]; exact HealthAnalyzer.pyRoundR_zero⟩

/-- C10 (witness): the theorem applied to three channels with counts
`[5, 0, 0]`. -/
theorem C10_witness :
    HealthAnalyzer.channelHealthScore [⟨1, 5⟩, ⟨2, 0⟩, ⟨3, 0⟩] = 0 ∧
    pyRoundR (HealthAnalyzer.channelHealthScore [⟨1, 5⟩, ⟨2, 0⟩, ⟨3, 0⟩]) = 0 :=
  C10_single_active_channel_zero_health [⟨1, 5⟩, ⟨2, 0⟩, ⟨3, 0⟩] rfl

end CommunityPulse
